import Mathlib

/-
Verification of the limalight OLED display controller
(src/limelight/oled_display.py) against its natural-language specification.

The Python module drives a 128x32 monochrome OLED display.  Its state lives
in the `OLEDDisplay` object: the cooperative animation flag `is_animating`,
the background animation thread, the deferred `threading.Timer`, the render
lock, and the currently shown frame buffer.  Below we give a shallow
embedding: images are pure pixel maps, the controller state is a record,
and every public operation is a pure state transformer that also records
the trace of observable actions (stop, cancel, push, arm-timer) and the
log messages it emits, mirroring the source line by line.
-/

set_option autoImplicit false

namespace Limelight

/-- A decoded monochrome image: a width, a height and a pixel map
(`true` = lit pixel).  Corresponds to a PIL mode-"1" image in the source. -/
structure Img where
  width : Nat
  height : Nat
  pixel : Nat → Nat → Bool

/-- Display width, from `adafruit_ssd1306.SSD1306_I2C(128, 32, ...)`
(source line 27, stored as `self.width` at line 30). -/
def displayWidth : Nat := 128

/-- Display height, from `SSD1306_I2C(128, 32, ...)` (line 27/31). -/
def displayHeight : Nat := 32

/-- Embedding of `_center_image` (source lines 167-173): a fresh blank
canvas of size `W x H`, with the source image pasted at the offset
`((W - img.width) // 2, (H - img.height) // 2)`.  Python `//` is floor
division and the offsets can be negative for images larger than the
canvas, so the offsets are computed in `Int` with `Int.fdiv`; PIL's
`paste` crops the parts of the image that fall outside the canvas, which
is what the region test below does. -/
def _center_image (W H : Nat) (img : Img) : Img :=
  let x : Int := Int.fdiv ((W : Int) - (img.width : Int)) 2
  let y : Int := Int.fdiv ((H : Int) - (img.height : Int)) 2
  { width := W
    height := H
    pixel := fun px py =>
      if px < W ∧ py < H then
        let sx : Int := (px : Int) - x
        let sy : Int := (py : Int) - y
        if 0 ≤ sx ∧ sx < (img.width : Int) ∧ 0 ≤ sy ∧ sy < (img.height : Int) then
          img.pixel sx.toNat sy.toNat
        else false
      else false }

/-- Embedding of the polarity inversion applied to static images
(source line 143): `ImageOps.invert(img.convert("L")).convert("1")`.
On a mode-"1" image the "L" round trip maps 1 to 255 and 0 to 0, invert
maps v to 255 - v, and the final threshold back to "1" maps 255 to 1 and
0 to 0, so the composite is a plain per-pixel bit flip. -/
def invertImg (img : Img) : Img :=
  { img with pixel := fun x y => !(img.pixel x y) }

/-- The asset environment the controller resolves names against.
`userAnims name = some imgs` models: the user directory
`~/.limelight/animations/<name>` exists and its sorted `*.bmp` files
decode to `imgs` (possibly empty).  `none` models: the directory does not
exist.  Likewise `pkgAnims` for the bundled package directory, and
`userIcons`/`pkgIcons` for single `icons/<name>.bmp` stills. -/
structure Env where
  userAnims : String → Option (List Img)
  pkgAnims : String → Option (List Img)
  userIcons : String → Option Img
  pkgIcons : String → Option Img

/-- The two non-fatal failures of animation resolution in `_animate`:
`notFound` is the line 76-78 path (neither directory exists), `noFrames`
is the line 85-87 path (a directory exists but holds no frames). -/
inductive AnimErr where
  | notFound
  | noFrames
deriving DecidableEq

/-- Frame-list construction shared by both branches of `_animate`
(lines 67-70 and 80-83 plus the emptiness check at line 85): each decoded
image is centered, and an empty list is the `noFrames` error. -/
def framesOk (imgs : List Img) : Except AnimErr (List Img) :=
  let frames := imgs.map (_center_image displayWidth displayHeight)
  if frames.isEmpty then Except.error AnimErr.noFrames else Except.ok frames

/-- Embedding of the animation-resolution part of `_animate`
(source lines 63-87): the user directory is consulted first (line 65);
only when it does not exist is the package directory consulted
(lines 71-83); if that does not exist either the result is `notFound`
(lines 76-78); an existing but frameless directory is `noFrames`
(lines 85-87). -/
def resolveAnimation (env : Env) (name : String) : Except AnimErr (List Img) :=
  match env.userAnims name with
  | some imgs => framesOk imgs
  | none =>
    match env.pkgAnims name with
    | some imgs => framesOk imgs
    | none => Except.error AnimErr.notFound

/-- Embedding of the still-image resolution in `display_static_image`
(source lines 129-141): user icon path first (line 131), package resource
as fallback (lines 134-141), `none` when both are missing. -/
def resolveStill (env : Env) (name : String) : Option Img :=
  match env.userIcons name with
  | some img => some img
  | none => env.pkgIcons name

/-- Callback of the deferred `threading.Timer` armed by `display_message`
(source lines 116-121): `display_idle` (line 118) or `clear` (line 120). -/
inductive TimerCallback where
  | displayIdle
  | clearCb
deriving DecidableEq

/-- A `threading.Timer` object as the controller sees it: its delay, its
callback, and whether it is still alive (armed, not yet fired or
cancelled).  `cancel` on an armed timer clears `alive`; the object stays
referenced by `self.timer`. -/
structure TimerState where
  duration : Int
  callback : TimerCallback
  alive : Bool
deriving DecidableEq

/-- The frame buffer content currently committed to the hardware.  Text
rasterization is opaque in the design (a non-goal), so a message is kept
symbolically; a pushed still keeps its concrete pixels. -/
inductive Shown where
  | blank
  | message (msg : String)
  | still (img : Img)

/-- The mutable state of an `OLEDDisplay` object (source lines 21-48)
that the claims are about.
`is_animating` is the cooperative flag set at line 52 and cleared at
line 162.  `is_animinating` is a SEPARATE attribute: the `finally` block
of `_animate` (line 100) assigns `self.is_animinating = False`, a name
that differs from `is_animating`, so Python creates a new attribute
instead of resetting the flag.  The embedding keeps both fields to stay
faithful to that behaviour.  `threadAlive` models
`self.current_thread and self.current_thread.is_alive()`, `timer` models
`self.timer`, and `shown` the committed frame buffer. -/
structure CtrlState where
  is_animating : Bool
  is_animinating : Bool
  threadAlive : Bool
  timer : Option TimerState
  shown : Shown

/-- Observable actions of a public operation, in program order: clearing
the flag and joining the thread (`stop_animation` call), cancelling the
pending timer, pushing a frame buffer to the device
(`display.image`/`display.show` or `display.fill(0)`), launching the
animation thread, and arming a new timer. -/
inductive Ev where
  | stopAnim
  | cancelTimer
  | push
  | startThread
  | armTimer (cb : TimerCallback)
deriving DecidableEq

/-- The `logging.error` messages the module can emit (source lines 77,
86, 98, 139, 148). -/
inductive LogMsg where
  | animNotFound (name : String)
  | noFrames (name : String)
  | animError (name : String)
  | imageNotFound (name : String)
  | imageError (name : String)
deriving DecidableEq

/-- Result of running one public operation: the successor state, the
trace of observable actions, and the emitted log messages. -/
structure OpResult where
  state : CtrlState
  trace : List Ev
  logs : List LogMsg

/-- Python truthiness of `self.timer and self.timer.is_alive()`
(source lines 104, 125, 155). -/
def timerAlive (st : CtrlState) : Bool :=
  match st.timer with
  | some t => t.alive
  | none => false

/-- Embedding of `stop_animation` (source lines 161-165): clear the
cooperative flag, then join the background thread if it is alive.  By the
time `join` returns the thread's `finally` block has run, so joining also
performs the line 100 assignment `is_animinating = False`; the joined
`current_thread` is dropped. -/
def stop_animation (st : CtrlState) : CtrlState :=
  let st1 : CtrlState := { st with is_animating := false }
  if st1.threadAlive then
    { st1 with threadAlive := false, is_animinating := false }
  else st1

/-- Embedding of `if self.timer and self.timer.is_alive(): self.timer.cancel()`
(source lines 104-105, 125-126, 155-156): a live timer is cancelled, a
dead or absent timer is left alone. -/
def cancelPendingTimer (st : CtrlState) : CtrlState :=
  match st.timer with
  | some t => if t.alive then { st with timer := some { t with alive := false } } else st
  | none => st

/-- Embedding of `play_animation` (source lines 50-56): call
`stop_animation`, set `is_animating = True`, create and start the
`_animate` thread, and return.  Note there is NO cancellation of a
pending timer and no validation of `name`, `loopFlag` or `fps` on this
path; the launched thread's behaviour is modelled by `_animate` below. -/
def play_animation (st : CtrlState) (name : String) (loopFlag : Bool) (fps : Int) :
    OpResult :=
  let st1 := stop_animation st
  let st2 : CtrlState := { st1 with is_animating := true, threadAlive := true }
  { state := st2, trace := [Ev.stopAnim, Ev.startThread], logs := [] }

/-- Embedding of `display_message` (source lines 102-121): stop the
animation, cancel a live pending timer, draw the centered text and push
it under the lock, and, when `duration > 0`, arm one new timer whose
callback is `display_idle` when `return_to_idle` else `clear`. -/
def display_message (st : CtrlState) (msg : String) (duration : Int)
    (return_to_idle : Bool) : OpResult :=
  let st1 := stop_animation st
  let st2 := cancelPendingTimer st1
  let st3 : CtrlState := { st2 with shown := Shown.message msg }
  let tr : List Ev :=
    [Ev.stopAnim] ++ (if timerAlive st then [Ev.cancelTimer] else []) ++ [Ev.push]
  if 0 < duration then
    let cb := if return_to_idle then TimerCallback.displayIdle else TimerCallback.clearCb
    { state := { st3 with timer := some ⟨duration, cb, true⟩ }
      trace := tr ++ [Ev.armTimer cb]
      logs := [] }
  else
    { state := st3, trace := tr, logs := [] }

/-- Embedding of `display_static_image` (source lines 123-148): stop the
animation, cancel a live pending timer, resolve the still (user icon
first, bundled fallback); a missing asset logs one error and pushes
nothing (lines 138-140); a resolved image is inverted (line 143),
centered (line 144) and pushed (lines 145-146). -/
def display_static_image (env : Env) (st : CtrlState) (name : String) : OpResult :=
  let st1 := stop_animation st
  let st2 := cancelPendingTimer st1
  let tr : List Ev :=
    [Ev.stopAnim] ++ (if timerAlive st then [Ev.cancelTimer] else [])
  match resolveStill env name with
  | none =>
    { state := st2, trace := tr, logs := [LogMsg.imageNotFound name] }
  | some img =>
    let pushed := _center_image displayWidth displayHeight (invertImg img)
    { state := { st2 with shown := Shown.still pushed }
      trace := tr ++ [Ev.push]
      logs := [] }

/-- Embedding of `clear` (source lines 153-159): stop the animation,
cancel a live pending timer, push an all-blank buffer
(`display.fill(0)`; `show()`). -/
def clearDisplay (st : CtrlState) : OpResult :=
  let st1 := stop_animation st
  let st2 := cancelPendingTimer st1
  { state := { st2 with shown := Shown.blank }
    trace := [Ev.stopAnim] ++ (if timerAlive st then [Ev.cancelTimer] else []) ++ [Ev.push]
    logs := [] }

/-- Embedding of `display_idle` (source lines 150-151). -/
def display_idle (st : CtrlState) : OpResult :=
  play_animation st ("idle") true 2

/-- Result of one run of the `_animate` thread body (source lines 58-100). -/
structure AnimResult where
  state : CtrlState
  logs : List LogMsg
  pushed : List Img

/-- Embedding of one terminating run of `_animate` (source lines 58-100):
the `loop=False` pass together with every error exit.  Control flow, in
source order:
* `delay = 1.0 / fps` (line 61): `fps = 0` raises `ZeroDivisionError`,
  caught at line 97 and logged;
* resolution (lines 63-87): `notFound` and `noFrames` log and return;
* the while loop (lines 89-96): if the cooperative flag is up, the pass
  pushes the frames; a negative `fps` makes `time.sleep(delay)` raise
  `ValueError` after the first push, caught at line 97 and logged; with
  the flag down the loop body never runs;
* the `finally` block (lines 99-100) runs on every one of these exits
  and executes `self.is_animinating = False` - the misspelled attribute -
  leaving `is_animating` untouched. -/
def _animate (env : Env) (name : String) (fps : Int) (st : CtrlState) : AnimResult :=
  let fin : CtrlState → CtrlState := fun s => { s with is_animinating := false }
  if fps = 0 then
    { state := fin st, logs := [LogMsg.animError name], pushed := [] }
  else
    match resolveAnimation env name with
    | Except.error AnimErr.notFound =>
      { state := fin st, logs := [LogMsg.animNotFound name], pushed := [] }
    | Except.error AnimErr.noFrames =>
      { state := fin st, logs := [LogMsg.noFrames name], pushed := [] }
    | Except.ok frames =>
      if st.is_animating then
        if fps < 0 then
          { state := fin st, logs := [LogMsg.animError name], pushed := frames.take 1 }
        else
          { state := fin st, logs := [], pushed := frames }
      else
        { state := fin st, logs := [], pushed := [] }

/-- Push-count semantics of the `while self.is_animating:` loop
(source lines 89-96), abstracted over the flag's history: `flagAt c` is
the value of `is_animating` the loop would read after `c` frame pushes
have happened.  Faithful to the source, the flag is read ONCE PER PASS
(at the `while` test, line 89); the inner `for frame in frames:` loop
(lines 90-94) pushes all `n` frames of the pass without re-reading the
flag; afterwards a non-looping run breaks (lines 95-96) and a looping
run re-tests the flag.  `fuel` bounds the number of passes so the
function is total; the result is the total number of pushes. -/
def animate_loop_pushes (flagAt : Nat → Bool) (n : Nat) (loopFlag : Bool) :
    Nat → Nat → Nat
  | 0, c => c
  | fuel + 1, c =>
    if flagAt c then
      if loopFlag then animate_loop_pushes flagAt n loopFlag fuel (c + n)
      else c + n
    else c

/-- Default arguments of `play_animation` (source line 50):
`loop=False`. -/
def play_animation_default_loop : Bool := false

/-- Default arguments of `play_animation` (source line 50): `fps=10`. -/
def play_animation_default_fps : Int := 10

/-- Default arguments of `display_message` (source line 102):
`duration=0`. -/
def display_message_default_duration : Int := 0

/-- Default arguments of `display_message` (source line 102):
`return_to_idle=True`. -/
def display_message_default_return_to_idle : Bool := true

/-- A bare `play_animation(name)` call, using the source's defaults. -/
def play_animation_bare (st : CtrlState) (name : String) : OpResult :=
  play_animation st name play_animation_default_loop play_animation_default_fps

/-- A bare `display_message(msg)` call, using the source's defaults. -/
def display_message_bare (st : CtrlState) (msg : String) : OpResult :=
  display_message st msg display_message_default_duration
    display_message_default_return_to_idle

/-! ### Concrete fixtures used to evaluate the model -/

/-- A one-pixel lit image, standing in for a decoded 1x1 bitmap frame. -/
def imgDot : Img :=
  { width := 1, height := 1, pixel := fun _ _ => true }

/-- An environment with a single one-frame user animation named "blink"
and nothing else. -/
def envBlink : Env :=
  { userAnims := fun n => if n = ("blink") then some [imgDot] else none
    pkgAnims := fun _ => none
    userIcons := fun _ => none
    pkgIcons := fun _ => none }

/-- An environment with no assets at all. -/
def envEmpty : Env :=
  { userAnims := fun _ => none
    pkgAnims := fun _ => none
    userIcons := fun _ => none
    pkgIcons := fun _ => none }

/-- A freshly constructed controller: no animation, no thread, no timer
(source lines 36-38). -/
def stFresh : CtrlState :=
  { is_animating := false, is_animinating := false, threadAlive := false
    timer := none, shown := Shown.blank }

/-- A controller in the middle of `_animate`: the flag was set by
`play_animation` and the thread is alive. -/
def stRunning : CtrlState :=
  { is_animating := true, is_animinating := false, threadAlive := true
    timer := none, shown := Shown.blank }

/-- A quiescent controller with one pending live timer (armed to `clear`
after 5 seconds). -/
def stWithTimer : CtrlState :=
  { is_animating := false, is_animinating := false, threadAlive := false
    timer := some ⟨5, TimerCallback.clearCb, true⟩, shown := Shown.blank }

/-- A trace in which every timer cancellation happens before the first
frame push: no `cancelTimer` event remains once the suffix starting at
the first `push` begins. -/
def cancelsBeforeFirstPush (tr : List Ev) : Prop :=
  Ev.cancelTimer ∉ tr.dropWhile (fun e => decide (e ≠ Ev.push))

instance (tr : List Ev) : Decidable (cancelsBeforeFirstPush tr) := by
  unfold cancelsBeforeFirstPush
  infer_instance

/-- Recognizer for timer-arming events in a trace. -/
def isArmEv : Ev → Bool :=
  fun e => match e with
  | Ev.armTimer _ => true
  | _ => false

/-- A one-pixel dark image, used as a bundled asset that differs from
the user override `imgDot`. -/
def imgDark : Img :=
  { width := 1, height := 1, pixel := fun _ _ => false }

/-- An environment where the animation "blink" and the icon "ok" exist
in BOTH the user override location and the bundled location, with
different content in each. -/
def envBoth : Env :=
  { userAnims := fun n => if n = ("blink") then some [imgDot] else none
    pkgAnims := fun n => if n = ("blink") then some [imgDark, imgDark] else none
    userIcons := fun n => if n = ("ok") then some imgDot else none
    pkgIcons := fun n => if n = ("ok") then some imgDark else none }

/-- The same user assets as `envBoth` but with an empty bundled
location. -/
def envUserOnly : Env :=
  { envBoth with pkgAnims := fun _ => none, pkgIcons := fun _ => none }

/-- An environment whose only asset is the animation "boot" in the
bundled location: nothing exists in the user override location. -/
def envPkgOnly : Env :=
  { userAnims := fun _ => none
    pkgAnims := fun n => if n = ("boot") then some [imgDark] else none
    userIcons := fun _ => none
    pkgIcons := fun _ => none }

/-- A 2x2 diagonal test image for the centering witness. -/
def imgTwo : Img :=
  { width := 2, height := 2, pixel := fun x y => decide (x = y) }

/-! ### Small facts about the state transformers, shared by the claims -/

theorem timerAlive_cancelPendingTimer (st : CtrlState) :
    timerAlive (cancelPendingTimer st) = false := by
  rcases st with ⟨ia, ii, ta, tm, sh⟩
  rcases tm with _ | ⟨d, cb, al⟩
  · rfl
  · cases al <;> rfl

theorem stop_animation_timer (st : CtrlState) :
    (stop_animation st).timer = st.timer := by
  rcases st with ⟨ia, ii, ta, tm, sh⟩
  cases ta <;> rfl

theorem stop_animation_shown (st : CtrlState) :
    (stop_animation st).shown = st.shown := by
  rcases st with ⟨ia, ii, ta, tm, sh⟩
  cases ta <;> rfl

theorem cancelPendingTimer_shown (st : CtrlState) :
    (cancelPendingTimer st).shown = st.shown := by
  rcases st with ⟨ia, ii, ta, tm, sh⟩
  rcases tm with _ | ⟨d, cb, al⟩
  · rfl
  · cases al <;> rfl

/-! ### Claims -/

/-- Claim C1.  The claim states that every exit path of the animation
loop (normal completion of a non-looping pass, missing-asset return, and
caught exception) resets `is_animating` to `false`.  The code does not:
the `finally` block at source line 100 assigns the misspelled attribute
`is_animinating`, so `is_animating` stays `true` on all three exit paths
(evaluated here on a running controller with a one-frame animation for
the normal pass, an empty environment for the missing-asset return, and
`fps = 0` for the caught `ZeroDivisionError`); only the misspelled
attribute is set to `false`. -/
theorem c1_exit_paths_leave_is_animating_set :
    (_animate envBlink ("blink") 10 stRunning).state.is_animating = true ∧
    (_animate envEmpty ("blink") 10 stRunning).state.is_animating = true ∧
    (_animate envBlink ("blink") 0 stRunning).state.is_animating = true ∧
    (_animate envBlink ("blink") 10 stRunning).state.is_animinating = false := by
  refine ⟨rfl, rfl, rfl, rfl⟩

/-- Claim C4, counterexample.  The claim states that
`play_animation` with `fps <= 0` or an empty name is rejected
synchronously before any state mutation (no flag set, no thread
launched).  Evaluating the embedded `play_animation` on a fresh
controller with an empty name and `fps = 0`: it completes without error
(`logs = []`), sets the animating flag, and launches the thread. -/
theorem c4_validation_cex :
    ¬ ((play_animation stFresh ("") false 0).state.is_animating = false ∧
       (play_animation stFresh ("") false 0).state.threadAlive = false) ∧
    (play_animation stFresh ("") false 0).logs = [] ∧
    Ev.startThread ∈ (play_animation stFresh ("") false 0).trace := by
  refine ⟨by decide, rfl, by decide⟩

/-- Claim C4, amended: `play_animation` performs no synchronous
validation at all - for every state and every argument value (including
`fps <= 0` and an empty name) it sets `is_animating`, launches the
animation thread and raises nothing synchronously; an invalid `fps = 0`
instead surfaces later inside the background loop, where the
`ZeroDivisionError` from `delay = 1.0 / fps` is caught and logged after
zero frames have been pushed. -/
theorem c4_no_validation_mutates_then_fails_in_loop (st : CtrlState)
    (name : String) (loopFlag : Bool) (fps : Int) (env : Env) (st2 : CtrlState) :
    (play_animation st name loopFlag fps).state.is_animating = true ∧
    (play_animation st name loopFlag fps).state.threadAlive = true ∧
    (play_animation st name loopFlag fps).logs = [] ∧
    (_animate env name 0 st2).pushed = [] ∧
    (_animate env name 0 st2).logs = [LogMsg.animError name] := by
  refine ⟨rfl, rfl, rfl, ?_, ?_⟩ <;> simp [_animate]

/-- Claim C10: with the optional arguments omitted, `play_animation`
defaults to `loop = False`, `fps = 10`, and `display_message` defaults to
`duration = 0`, `return_to_idle = True`; consequently a bare
`display_message` call arms no timer (no arm event in its trace and no
live timer in its final state). -/
theorem c10_default_arguments (st : CtrlState) (name msg : String) :
    play_animation_bare st name = play_animation st name false 10 ∧
    display_message_bare st msg = display_message st msg 0 true ∧
    (∀ cb, Ev.armTimer cb ∉ (display_message_bare st msg).trace) ∧
    timerAlive (display_message_bare st msg).state = false := by
  refine ⟨rfl, rfl, ?_, ?_⟩
  · intro cb
    simp only [display_message_bare, display_message,
      display_message_default_duration, display_message_default_return_to_idle]
    norm_num
    exact ⟨by simp, fun _ => by simp, by simp⟩
  · simp only [display_message_bare, display_message,
      display_message_default_duration, display_message_default_return_to_idle]
    norm_num
    exact timerAlive_cancelPendingTimer _

/-- Claim C2, counterexample.  The claim states that every public
operation - `play_animation` included - first cancels any pending
deferred timer.  Evaluating the embedded `play_animation` on a quiescent
controller holding a live pending timer: the timer is still alive
afterwards and no cancellation event appears in the trace
(`play_animation`, source lines 50-56, never touches `self.timer`). -/
theorem c2_play_animation_skips_timer_cancel :
    timerAlive (play_animation stWithTimer ("blink") false 10).state = true ∧
    Ev.cancelTimer ∉ (play_animation stWithTimer ("blink") false 10).trace := by
  decide

/-- Claim C2, amended: `display_message`, `display_static_image` and
`clear` each begin with the animation stop, cancel any pending live
timer, and do so before pushing anything; `play_animation` begins with
the animation stop as well but performs NO timer cancellation - it
leaves `self.timer` exactly as it found it. -/
theorem c2_stop_then_cancel_discipline (env : Env) (st : CtrlState)
    (msg iname aname : String) (d : Int) (rti loopFlag : Bool) (fps : Int) :
    ((display_message st msg d rti).trace.head? = some Ev.stopAnim ∧
      (timerAlive st = true → Ev.cancelTimer ∈ (display_message st msg d rti).trace) ∧
      cancelsBeforeFirstPush (display_message st msg d rti).trace) ∧
    ((display_static_image env st iname).trace.head? = some Ev.stopAnim ∧
      (timerAlive st = true →
        Ev.cancelTimer ∈ (display_static_image env st iname).trace) ∧
      cancelsBeforeFirstPush (display_static_image env st iname).trace) ∧
    ((clearDisplay st).trace.head? = some Ev.stopAnim ∧
      (timerAlive st = true → Ev.cancelTimer ∈ (clearDisplay st).trace) ∧
      cancelsBeforeFirstPush (clearDisplay st).trace) ∧
    ((play_animation st aname loopFlag fps).trace.head? = some Ev.stopAnim ∧
      (play_animation st aname loopFlag fps).state.timer = st.timer ∧
      Ev.cancelTimer ∉ (play_animation st aname loopFlag fps).trace) := by
  refine ⟨⟨?_, ?_, ?_⟩, ⟨?_, ?_, ?_⟩, ⟨?_, ?_, ?_⟩, ⟨rfl, ?_, ?_⟩⟩
  · by_cases hd : 0 < d <;> simp [display_message, hd]
  · intro hta
    by_cases hd : 0 < d <;> simp [display_message, hd, hta]
  · by_cases hd : 0 < d <;> by_cases hta : timerAlive st <;>
      simp [display_message, hd, hta, cancelsBeforeFirstPush]
  · rcases hr : resolveStill env iname with _ | img <;>
      simp [display_static_image, hr]
  · intro hta
    rcases hr : resolveStill env iname with _ | img <;>
      simp [display_static_image, hr, hta]
  · rcases hr : resolveStill env iname with _ | img <;>
      by_cases hta : timerAlive st <;>
      simp [display_static_image, hr, hta, cancelsBeforeFirstPush]
  · rfl
  · intro hta
    simp [clearDisplay, hta]
  · by_cases hta : timerAlive st <;>
      simp [clearDisplay, hta, cancelsBeforeFirstPush]
  · rw [play_animation]
    simp only
    rw [stop_animation_timer]
  · rw [play_animation]
    simp

/-- Witness for the amended C2 at concrete inputs: a controller holding
a live timer, a resolvable still, and arbitrary small arguments. -/
theorem c2_stop_then_cancel_discipline_witness :
    Ev.cancelTimer ∈ (display_message stWithTimer ("hi") 2 true).trace ∧
    Ev.cancelTimer ∈ (clearDisplay stWithTimer).trace ∧
    (play_animation stWithTimer ("blink") false 10).state.timer = stWithTimer.timer := by
  have h := c2_stop_then_cancel_discipline envBlink stWithTimer ("hi") ("ok")
    ("blink") 2 true false 10
  exact ⟨h.1.2.1 rfl, h.2.2.1.2.1 rfl, h.2.2.2.2.1⟩

/-- Claim C3, counterexample.  The claim states that the loop re-checks
the cooperative flag before each individual frame push, so at most one
push can still happen once the flag is down.  In the embedded loop
semantics, take a 3-frame non-looping animation whose flag is up at the
initial `while` test and is cleared immediately afterwards (`flagAt k`
is true only for `k = 0`): the pass still pushes all 3 frames, exceeding the claimed
bound of the one in-flight frame plus at most one more (`1 + 1`). -/
theorem c3_frame_granularity_cex :
    animate_loop_pushes (fun k => decide (k = 0)) 3 false 1 0 = 3 ∧
    ¬ animate_loop_pushes (fun k => decide (k = 0)) 3 false 1 0 ≤ 1 + 1 := by
  decide

/-- Claim C3, amended: the loop checks the cooperative flag once per
PASS, not once per frame.  Consequently `stop_animation` interrupts at
pass granularity: if the flag reads false from push-count `t` onward,
the total number of pushes is bounded by `max c (t + n)` - at most one
full pass of `n` frames beyond the stop point - and a pass whose initial
`while` test reads false pushes nothing further. -/
theorem c3_pass_granularity (flagAt : Nat → Bool) (n fuel c t : Nat)
    (loopFlag : Bool) (hstop : ∀ k, t ≤ k → flagAt k = false) :
    animate_loop_pushes flagAt n loopFlag fuel c ≤ max c (t + n) ∧
    (flagAt c = false → animate_loop_pushes flagAt n loopFlag fuel c = c) := by
  constructor
  · induction fuel generalizing c with
    | zero => simp [animate_loop_pushes]
    | succ fuel ih =>
      by_cases h : flagAt c = true
      · have hct : c < t := by
          by_contra hc
          push_neg at hc
          rw [hstop c hc] at h
          exact Bool.false_ne_true h
        cases loopFlag
        · simp only [animate_loop_pushes, h, if_true]
          have : c + n ≤ t + n := by omega
          exact le_trans this (le_max_right _ _)
        · simp only [animate_loop_pushes, h, if_true]
          refine le_trans (ih (c + n)) ?_
          have hmax : max (c + n) (t + n) = t + n := max_eq_right (by omega)
          rw [hmax]
          exact le_max_right _ _
      · rw [Bool.not_eq_true] at h
        simp [animate_loop_pushes, h]
  · intro h
    cases fuel
    · rfl
    · simp [animate_loop_pushes, h]

/-- Witness for the amended C3: a looping 2-frame animation whose flag
goes down from push-count 4 onward pushes at most 6 frames in total, and
a pass starting with the flag already down pushes nothing. -/
theorem c3_pass_granularity_witness :
    animate_loop_pushes (fun k => decide (k < 4)) 2 true 10 0 ≤ max 0 (4 + 2) ∧
    animate_loop_pushes (fun k => decide (k < 4)) 2 true 10 5 = 5 := by
  have h1 := c3_pass_granularity (fun k => decide (k < 4)) 2 10 0 4 true
    (by intro k hk; simp; omega)
  have h2 := c3_pass_granularity (fun k => decide (k < 4)) 2 10 5 4 true
    (by intro k hk; simp; omega)
  exact ⟨h1.1, h2.2 (by decide)⟩

/-- Claim C5: `display_message` with `duration = 0` arms no timer (no
arm event in the trace, no live timer in the final state); with
`duration > 0` it arms exactly one timer, whose callback is
`display_idle` when `return_to_idle` is true and `clear` when it is
false (source lines 116-121). -/
theorem c5_display_message_timer (st : CtrlState) (msg : String) (d : Int)
    (rti : Bool) :
    (d = 0 →
      (display_message st msg d rti).trace.filter isArmEv = [] ∧
      timerAlive (display_message st msg d rti).state = false) ∧
    (0 < d →
      (display_message st msg d rti).trace.filter isArmEv =
        [Ev.armTimer (if rti then TimerCallback.displayIdle else TimerCallback.clearCb)] ∧
      (display_message st msg d rti).state.timer =
        some ⟨d, if rti then TimerCallback.displayIdle else TimerCallback.clearCb, true⟩) := by
  constructor
  · intro h
    subst h
    constructor
    · cases hta : timerAlive st <;>
        simp [display_message, hta, isArmEv]
    · simp only [display_message]
      norm_num
      exact timerAlive_cancelPendingTimer _
  · intro h
    constructor
    · cases hta : timerAlive st <;> cases rti <;>
        simp [display_message, h, hta, isArmEv]
    · cases rti <;> simp [display_message, h]

/-- Witness for C5: on a controller holding a live timer, a
zero-duration message arms nothing, and a 3-second non-idle message arms
exactly one timer with the `clear` callback. -/
theorem c5_display_message_timer_witness :
    ((display_message stWithTimer ("X") 0 true).trace.filter isArmEv = [] ∧
      timerAlive (display_message stWithTimer ("X") 0 true).state = false) ∧
    ((display_message stWithTimer ("X") 3 false).trace.filter isArmEv =
        [Ev.armTimer TimerCallback.clearCb] ∧
      (display_message stWithTimer ("X") 3 false).state.timer =
        some ⟨3, TimerCallback.clearCb, true⟩) :=
  ⟨(c5_display_message_timer stWithTimer ("X") 0 true).1 rfl,
    (c5_display_message_timer stWithTimer ("X") 3 false).2 (by decide)⟩

/-- Claim C6: `display_static_image` on a name missing from both the
user and the bundled location pushes nothing (the shown content is
unchanged and no push event occurs) and logs exactly one error
(source lines 138-140). -/
theorem c6_missing_still_is_noop (env : Env) (st : CtrlState) (name : String)
    (h : resolveStill env name = none) :
    (display_static_image env st name).state.shown = st.shown ∧
    Ev.push ∉ (display_static_image env st name).trace ∧
    (display_static_image env st name).logs = [LogMsg.imageNotFound name] := by
  refine ⟨?_, ?_, ?_⟩
  · simp only [display_static_image, h]
    rw [cancelPendingTimer_shown, stop_animation_shown]
  · cases hta : timerAlive st <;> simp [display_static_image, h, hta]
  · simp [display_static_image, h]

/-- Witness for C6: the empty environment resolves nothing, so showing
the still named "missing" on a timer-holding controller changes nothing
and logs one error. -/
theorem c6_missing_still_is_noop_witness :
    (display_static_image envEmpty stWithTimer ("missing")).state.shown =
      stWithTimer.shown ∧
    Ev.push ∉ (display_static_image envEmpty stWithTimer ("missing")).trace ∧
    (display_static_image envEmpty stWithTimer ("missing")).logs =
      [LogMsg.imageNotFound ("missing")] :=
  c6_missing_still_is_noop envEmpty stWithTimer ("missing") rfl

/-- Claim C7: both resolvers prefer the user override.  When the user
location has the asset, the result does not depend on the bundled
location at all (two environments agreeing on the user entries resolve
identically); the bundled location determines the result only when the
user location is absent. -/
theorem c7_user_override_precedence (env env2 : Env) (name : String)
    (hA : env.userAnims name = env2.userAnims name)
    (hI : env.userIcons name = env2.userIcons name) :
    (env.userAnims name ≠ none →
      resolveAnimation env name = resolveAnimation env2 name) ∧
    (env.userIcons name ≠ none → resolveStill env name = resolveStill env2 name) ∧
    (env.userAnims name = none →
      resolveAnimation env name =
        (match env.pkgAnims name with
         | some imgs => framesOk imgs
         | none => Except.error AnimErr.notFound)) ∧
    (env.userIcons name = none → resolveStill env name = env.pkgIcons name) := by
  refine ⟨?_, ?_, ?_, ?_⟩
  · intro hne
    rcases hu : env.userAnims name with _ | imgs
    · exact absurd hu hne
    · have h2 : env2.userAnims name = some imgs := by rw [← hA]; exact hu
      simp [resolveAnimation, hu, h2]
  · intro hne
    rcases hu : env.userIcons name with _ | img
    · exact absurd hu hne
    · have h2 : env2.userIcons name = some img := by rw [← hI]; exact hu
      simp [resolveStill, hu, h2]
  · intro hu
    simp [resolveAnimation, hu]
  · intro hu
    simp [resolveStill, hu]

/-- Witness for C10 at concrete inputs: the bare-call equalities and
the no-timer consequence on a fresh controller. -/
theorem c10_default_arguments_witness :
    play_animation_bare stFresh ("blink") = play_animation stFresh ("blink") false 10 ∧
    Ev.armTimer TimerCallback.clearCb ∉ (display_message_bare stFresh ("hi")).trace ∧
    timerAlive (display_message_bare stFresh ("hi")).state = false := by
  have h := c10_default_arguments stFresh ("blink") ("hi")
  exact ⟨h.1, h.2.2.1 TimerCallback.clearCb, h.2.2.2⟩

/-- Witness for C7: "blink" and "ok" are present in both locations of
`envBoth`, and removing the bundled location entirely (`envUserOnly`)
does not change what they resolve to. -/
theorem c7_user_override_precedence_witness :
    resolveAnimation envBoth ("blink") = resolveAnimation envUserOnly ("blink") ∧
    resolveStill envBoth ("ok") = resolveStill envUserOnly ("ok") := by
  refine ⟨(c7_user_override_precedence envBoth envUserOnly ("blink") rfl rfl).1 ?_,
    (c7_user_override_precedence envBoth envUserOnly ("ok") rfl rfl).2.1 ?_⟩
  · intro hcon
    rw [show envBoth.userAnims ("blink") = some [imgDot] from rfl] at hcon
    exact Option.noConfusion hcon
  · intro hcon
    rw [show envBoth.userIcons ("ok") = some imgDot from rfl] at hcon
    exact Option.noConfusion hcon

/-- Claim C8: the polarity inversion is applied to every resolved still
before the push and never to animation frames.  For a resolved still the
pushed buffer is the centered INVERTED image - pixelwise the negation of
the decoded source (source line 143) - while a pass of `_animate` pushes
the centered decoded frames unchanged from whichever location resolved
them: no inversion on the user-directory path (source lines 66-70) nor
on the bundled-package path (source lines 80-83). -/
theorem c8_inversion_asymmetry (env : Env) (st : CtrlState) (name : String)
    (img : Img) (imgs : List Img) (fps : Int)
    (hrun : st.is_animating = true) (hfps : 0 < fps) :
    (resolveStill env name = some img →
      (display_static_image env st name).state.shown =
        Shown.still (_center_image displayWidth displayHeight (invertImg img)) ∧
      ∀ x y, (invertImg img).pixel x y = !(img.pixel x y)) ∧
    (env.userAnims name = some imgs → imgs ≠ [] →
      (_animate env name fps st).pushed =
        imgs.map (_center_image displayWidth displayHeight)) ∧
    (env.userAnims name = none → env.pkgAnims name = some imgs → imgs ≠ [] →
      (_animate env name fps st).pushed =
        imgs.map (_center_image displayWidth displayHeight)) := by
  have h0 : ¬ fps = 0 := by omega
  have h1 : ¬ fps < 0 := by omega
  refine ⟨?_, ?_, ?_⟩
  · intro h
    constructor
    · simp [display_static_image, h]
    · intro x y
      rfl
  · intro hu hne
    have hres : resolveAnimation env name =
        Except.ok (imgs.map (_center_image displayWidth displayHeight)) := by
      rcases imgs with _ | ⟨a, t⟩
      · exact absurd rfl hne
      · simp [resolveAnimation, hu, framesOk]
    simp [_animate, h0, hres, hrun, h1]
  · intro hu hp hne
    have hres : resolveAnimation env name =
        Except.ok (imgs.map (_center_image displayWidth displayHeight)) := by
      rcases imgs with _ | ⟨a, t⟩
      · exact absurd rfl hne
      · simp [resolveAnimation, hu, hp, framesOk]
    simp [_animate, h0, hres, hrun, h1]

/-- Witness for C8: in `envBoth`, showing the still "ok" pushes the
centered inversion of the user icon, its pixel is the flipped source
pixel, and playing "blink" pushes the centered uninverted user frame;
in `envPkgOnly`, playing "boot" - absent from the user location and
resolved from the bundled location - also pushes the centered
uninverted bundled frame. -/
theorem c8_inversion_asymmetry_witness :
    (display_static_image envBoth stRunning ("ok")).state.shown =
      Shown.still (_center_image displayWidth displayHeight (invertImg imgDot)) ∧
    (invertImg imgDot).pixel 0 0 = !(imgDot.pixel 0 0) ∧
    (_animate envBoth ("blink") 10 stRunning).pushed =
      [imgDot].map (_center_image displayWidth displayHeight) ∧
    (_animate envPkgOnly ("boot") 10 stRunning).pushed =
      [imgDark].map (_center_image displayWidth displayHeight) := by
  have h1 := c8_inversion_asymmetry envBoth stRunning ("ok") imgDot [] 10 rfl
    (by decide)
  have h2 := c8_inversion_asymmetry envBoth stRunning ("blink") imgDot [imgDot] 10
    rfl (by decide)
  have h3 := c8_inversion_asymmetry envPkgOnly stRunning ("boot") imgDot [imgDark]
    10 rfl (by decide)
  have hstill : resolveStill envBoth ("ok") = some imgDot := rfl
  have hanim : envBoth.userAnims ("blink") = some [imgDot] := rfl
  have hpkg : envPkgOnly.pkgAnims ("boot") = some [imgDark] := rfl
  refine ⟨(h1.1 hstill).1, (h1.1 hstill).2 0 0, h2.2.1 hanim ?_, h3.2.2 rfl hpkg ?_⟩
  · intro hcon
    exact List.noConfusion hcon
  · intro hcon
    exact List.noConfusion hcon

/-- Claim C9: `_center_image` always produces an exactly display-sized
frame; a canvas pixel shows the source pixel at the claim's
integer-centered offset (floor division, computed in `Int` because the
offset is negative for oversized sources, with out-of-canvas parts
cropped) and is blank outside the pasted region; in particular, for
sources that fit the canvas, the pixel at offset-plus-`(u, v)` is
exactly the source pixel `(u, v)`. -/
theorem c9_center_image_geometry (W H : Nat) (img : Img) (px py u v : Nat) :
    (_center_image W H img).width = W ∧
    (_center_image W H img).height = H ∧
    (px < W → py < H →
      (_center_image W H img).pixel px py =
        (if 0 ≤ (px : Int) - Int.fdiv ((W : Int) - (img.width : Int)) 2 ∧
            (px : Int) - Int.fdiv ((W : Int) - (img.width : Int)) 2 < (img.width : Int) ∧
            0 ≤ (py : Int) - Int.fdiv ((H : Int) - (img.height : Int)) 2 ∧
            (py : Int) - Int.fdiv ((H : Int) - (img.height : Int)) 2 < (img.height : Int) then
          img.pixel ((px : Int) - Int.fdiv ((W : Int) - (img.width : Int)) 2).toNat
            ((py : Int) - Int.fdiv ((H : Int) - (img.height : Int)) 2).toNat
        else false)) ∧
    (img.width ≤ W → img.height ≤ H → u < img.width → v < img.height →
      (_center_image W H img).pixel ((W - img.width) / 2 + u)
        ((H - img.height) / 2 + v) = img.pixel u v) := by
  refine ⟨rfl, rfl, ?_, ?_⟩
  · intro h1 h2
    simp only [_center_image]
    rw [if_pos ⟨h1, h2⟩]
  · intro hW hH hu hv
    have hx : Int.fdiv ((W : Int) - (img.width : Int)) 2 =
        (((W - img.width) / 2 : Nat) : Int) := by
      rw [Int.fdiv_eq_ediv _ (by omega)]
      omega
    have hy : Int.fdiv ((H : Int) - (img.height : Int)) 2 =
        (((H - img.height) / 2 : Nat) : Int) := by
      rw [Int.fdiv_eq_ediv _ (by omega)]
      omega
    simp only [_center_image]
    rw [if_pos ⟨by omega, by omega⟩, hx, hy,
      if_pos ⟨by omega, by omega, by omega, by omega⟩]
    congr 1 <;> omega

/-- Witness for C9: centering the 2x2 diagonal image on a 6x4 canvas
keeps the canvas size, maps the offset-shifted pixel back to the source,
and shows the claimed region formula at the canvas origin. -/
theorem c9_center_image_geometry_witness :
    (_center_image 6 4 imgTwo).width = 6 ∧
    (_center_image 6 4 imgTwo).height = 4 ∧
    (_center_image 6 4 imgTwo).pixel ((6 - imgTwo.width) / 2 + 1)
      ((4 - imgTwo.height) / 2 + 0) = imgTwo.pixel 1 0 := by
  have h := c9_center_image_geometry 6 4 imgTwo 0 0 1 0
  exact ⟨h.1, h.2.1, h.2.2.2 (by decide) (by decide) (by decide) (by decide)⟩

end Limelight
